import Mathlib

set_option maxRecDepth 100000

/-! Verification development for the stock portfolio calculator service
implemented in `src/server.js`.  The JavaScript code is shallowly embedded:
JavaScript numbers are modelled as rationals (every finite IEEE-754 double is
a dyadic, hence decimal, rational), fallible operations return `Except` or
`Option`, and the external collaborators (the remote quote endpoint, the file
system, and the platform JSON codec) are passed in as explicit parameters so
that theorems quantify over their behaviour.  Executable reference
implementations of a JSON printer and parser are provided so that concrete
witnesses can be evaluated by the kernel. -/

namespace StockCalculator

/-! ## Rational helpers

`Rat.add`, `Rat.mul`, … from the library are `@[irreducible]`, which blocks
kernel evaluation of concrete witnesses, so the embedding uses `mkRat`-based
equivalents.  `qAdd_eq`/`qMul_eq` prove they agree with `+` and `*`. -/

def qAdd (a b : ℚ) : ℚ := mkRat (a.num * b.den + b.num * a.den) (a.den * b.den)

def qMul (a b : ℚ) : ℚ := mkRat (a.num * b.num) (a.den * b.den)

def qNeg (a : ℚ) : ℚ := mkRat (-a.num) a.den

theorem qAdd_eq (a b : ℚ) : qAdd a b = a + b := by
  have ha : ((a.den : ℚ)) ≠ 0 := Nat.cast_ne_zero.mpr a.den_nz
  have hb : ((b.den : ℚ)) ≠ 0 := Nat.cast_ne_zero.mpr b.den_nz
  rw [qAdd, Rat.mkRat_eq_divInt, Rat.divInt_eq_div]
  push_cast
  conv_rhs => rw [← Rat.num_div_den a, ← Rat.num_div_den b]
  rw [div_add_div _ _ ha hb]
  ring_nf

theorem qMul_eq (a b : ℚ) : qMul a b = a * b := by
  rw [qMul, Rat.mkRat_eq_divInt, Rat.divInt_eq_div]
  push_cast
  conv_rhs => rw [← Rat.num_div_den a, ← Rat.num_div_den b]
  rw [div_mul_div_comm]

theorem qNeg_eq (a : ℚ) : qNeg a = -a := by
  rw [qNeg, Rat.mkRat_eq_divInt, Rat.divInt_eq_div]
  push_cast
  rw [neg_div, Rat.num_div_den]

/-- Rounding to the nearest integer, halves away from zero for nonnegative
input, as performed by JavaScript `toFixed` on the exact value. -/
def jsRound (q : ℚ) : ℤ := Rat.floor (qAdd q (mkRat 1 2))

theorem jsRound_eq (q : ℚ) : jsRound q = ⌊q + 1 / 2⌋ := by
  have h2 : (mkRat 1 2 : ℚ) = 1 / 2 := by
    rw [Rat.mkRat_eq_divInt, Rat.divInt_eq_div]; norm_num
  rw [jsRound, qAdd_eq, h2, Rat.floor_def', ← Rat.floor_def]

/-- `parseFloat(x.toFixed(2))`: the numeric value of `x` rounded to two
decimal places. -/
def round2 (q : ℚ) : ℚ := mkRat (jsRound (qMul q 100)) 100

theorem round2_eq (q : ℚ) : round2 q = (⌊q * 100 + 1 / 2⌋ : ℚ) / 100 := by
  rw [round2, qMul_eq, jsRound_eq, Rat.mkRat_eq_divInt, Rat.divInt_eq_div]
  norm_num

/-- The two trailing decimal digits of a `toFixed(2)` rendering. -/
def pad2 (n : Nat) : String :=
  String.mk [Nat.digitChar (n / 10 % 10), Nat.digitChar (n % 10)]

/-- JavaScript `Number.prototype.toFixed(2)` on the exact rational value:
a decimal string with exactly two digits after the point. -/
def toFixed2 (q : ℚ) : String :=
  let scaled := jsRound (qMul q 100)
  (if scaled < 0 then "-" else "") ++
    toString (scaled.natAbs / 100) ++ "." ++ pad2 (scaled.natAbs % 100)

theorem toFixed2_two_decimals (q : ℚ) :
    ∃ a b, toFixed2 q = a ++ "." ++ b ∧ b.length = 2 := by
  refine ⟨(if jsRound (qMul q 100) < 0 then "-" else "") ++
    toString ((jsRound (qMul q 100)).natAbs / 100),
    pad2 ((jsRound (qMul q 100)).natAbs % 100), ?_, rfl⟩
  simp only [toFixed2, String.append_assoc]

/-- JavaScript `String.prototype.toUpperCase` (ASCII range, which is all the
service ever feeds it). -/
def upperStr (s : String) : String := String.mk (s.data.map Char.toUpper)

/-! ## JSON documents

The values produced by `JSON.parse` and consumed by `JSON.stringify`. -/

inductive Json where
  | null
  | bool (b : Bool)
  | num (q : ℚ)
  | str (s : String)
  | arr (elems : List Json)
  | obj (fields : List (String × Json))

/-! ## A reference JSON codec

`src/server.js` delegates serialization to the platform's
`JSON.stringify(·, null, 2)` and `JSON.parse`.  All theorems below take the
codec as a parameter; the executable printer and parser here realise it for
concrete witnesses (subset: no exponent notation in numbers and no `\uXXXX`
escapes, which the service never produces). -/

def spacesStr (n : Nat) : String := String.mk (List.replicate n ' ')

def escapeChar (c : Char) : String :=
  if c = '"' then "\\\""
  else if c = '\\' then "\\\\"
  else if c = '\n' then "\\n"
  else if c = '\t' then "\\t"
  else if c = '\r' then "\\r"
  else String.singleton c

def quoteJson (s : String) : String :=
  "\"" ++ String.join (s.data.map escapeChar) ++ "\""

/-- Decimal rendering of a nonnegative rational whose reduced denominator
divides a power of ten (every JavaScript number is such a rational). -/
def decDigits : Nat → Nat → Nat → Option Nat
  | 0, _, _ => none
  | fuel + 1, d, k => if 10 ^ k % d = 0 then some k else decDigits fuel d (k + 1)

def padLeftZeros (s : String) (k : Nat) : String :=
  if s.length < k then String.mk (List.replicate (k - s.length) '0') ++ s else s

def numAbsToString (q : ℚ) : String :=
  match decDigits 41 q.den 0 with
  | some 0 => toString q.num
  | some (k + 1) =>
    let scaled := q.num.natAbs * (10 ^ (k + 1) / q.den)
    toString (scaled / 10 ^ (k + 1)) ++ "." ++
      padLeftZeros (toString (scaled % 10 ^ (k + 1))) (k + 1)
  | none => toString q.num

def numToString (q : ℚ) : String :=
  if q.num < 0 then "-" ++ numAbsToString (-q) else numAbsToString q

mutual

def stringifyGo : Nat → Json → String
  | _, Json.null => "null"
  | _, Json.bool true => "true"
  | _, Json.bool false => "false"
  | _, Json.num q => numToString q
  | _, Json.str s => quoteJson s
  | _, Json.arr [] => "[]"
  | d, Json.arr (x :: xs) =>
    "[\n" ++ spacesStr ((d + 1) * 2) ++ stringifyGo (d + 1) x ++
      stringifyItems (d + 1) xs ++ "\n" ++ spacesStr (d * 2) ++ "]"
  | _, Json.obj [] => "\x7b\x7d"
  | d, Json.obj (f :: fs) =>
    "\x7b\n" ++ spacesStr ((d + 1) * 2) ++ quoteJson f.1 ++ ": " ++
      stringifyGo (d + 1) f.2 ++ stringifyFields (d + 1) fs ++
      "\n" ++ spacesStr (d * 2) ++ "\x7d"

def stringifyItems : Nat → List Json → String
  | _, [] => ""
  | d, x :: xs =>
    ",\n" ++ spacesStr (d * 2) ++ stringifyGo d x ++ stringifyItems d xs

def stringifyFields : Nat → List (String × Json) → String
  | _, [] => ""
  | d, f :: fs =>
    ",\n" ++ spacesStr (d * 2) ++ quoteJson f.1 ++ ": " ++
      stringifyGo d f.2 ++ stringifyFields d fs

end

/-- `JSON.stringify(j, null, 2)`: pretty-printed with two-space indent. -/
def jsonStringify (j : Json) : String := stringifyGo 0 j

def skipWsChars : List Char → List Char
  | [] => []
  | c :: r =>
    if c = ' ' || c = '\n' || c = '\t' || c = '\r' then skipWsChars r else c :: r

def unescapeChar (c : Char) : Option Char :=
  if c = '"' then some '"'
  else if c = '\\' then some '\\'
  else if c = '/' then some '/'
  else if c = 'n' then some '\n'
  else if c = 't' then some '\t'
  else if c = 'r' then some '\r'
  else none

def parseStrChars : List Char → Option (List Char × List Char)
  | [] => none
  | c :: r =>
    if c = '"' then some ([], r)
    else if c = '\\' then
      match r with
      | [] => none
      | e :: r2 =>
        match parseStrChars r2 with
        | some (acc, rest) => (unescapeChar e).map (fun u => (u :: acc, rest))
        | none => none
    else
      match parseStrChars r with
      | some (acc, rest) => some (c :: acc, rest)
      | none => none

def takeDigits : List Char → List Char × List Char
  | [] => ([], [])
  | c :: r =>
    if c.isDigit then ((c :: (takeDigits r).1), (takeDigits r).2) else ([], c :: r)

def digitsToNat (l : List Char) : Nat :=
  l.foldl (fun a c => a * 10 + (c.toNat - 48)) 0

def parseNumAbs (cs : List Char) : Option (ℚ × List Char) :=
  let d1 := (takeDigits cs).1
  let r1 := (takeDigits cs).2
  if d1.isEmpty then none
  else
    match r1 with
    | '.' :: r2 =>
      let d2 := (takeDigits r2).1
      let r3 := (takeDigits r2).2
      if d2.isEmpty then none
      else some (mkRat (digitsToNat d1 * 10 ^ d2.length + digitsToNat d2)
        (10 ^ d2.length), r3)
    | _ => some (mkRat (digitsToNat d1) 1, r1)

def parseNum (cs : List Char) : Option (Json × List Char) :=
  match cs with
  | '-' :: r => (parseNumAbs r).map (fun p => (Json.num (qNeg p.1), p.2))
  | _ => (parseNumAbs cs).map (fun p => (Json.num p.1, p.2))

mutual

def parseVal : Nat → List Char → Option (Json × List Char)
  | 0, _ => none
  | fuel + 1, cs0 =>
    match skipWsChars cs0 with
    | [] => none
    | c :: rest =>
      if c = '"' then
        match parseStrChars rest with
        | some (l, r) => some (Json.str (String.mk l), r)
        | none => none
      else if c = '[' then
        match skipWsChars rest with
        | ']' :: r2 => some (Json.arr [], r2)
        | r2 =>
          match parseElems fuel r2 with
          | some (els, r3) => some (Json.arr els, r3)
          | none => none
      else if c = Char.ofNat 123 then
        match skipWsChars rest with
        | [] => none
        | c2 :: r2 =>
          if c2 = Char.ofNat 125 then some (Json.obj [], r2)
          else
            match parseFields fuel (c2 :: r2) with
            | some (fs, r3) => some (Json.obj fs, r3)
            | none => none
      else if c = 'n' then
        match rest with
        | 'u' :: 'l' :: 'l' :: r => some (Json.null, r)
        | _ => none
      else if c = 't' then
        match rest with
        | 'r' :: 'u' :: 'e' :: r => some (Json.bool true, r)
        | _ => none
      else if c = 'f' then
        match rest with
        | 'a' :: 'l' :: 's' :: 'e' :: r => some (Json.bool false, r)
        | _ => none
      else parseNum (c :: rest)

def parseElems : Nat → List Char → Option (List Json × List Char)
  | 0, _ => none
  | fuel + 1, cs =>
    match parseVal fuel cs with
    | none => none
    | some (j, r) =>
      match skipWsChars r with
      | ',' :: r2 =>
        match parseElems fuel r2 with
        | some (els, r3) => some (j :: els, r3)
        | none => none
      | ']' :: r2 => some ([j], r2)
      | _ => none

def parseFields : Nat → List Char → Option (List (String × Json) × List Char)
  | 0, _ => none
  | fuel + 1, cs =>
    match skipWsChars cs with
    | '"' :: r =>
      match parseStrChars r with
      | none => none
      | some (key, r2) =>
        match skipWsChars r2 with
        | ':' :: r3 =>
          match parseVal fuel r3 with
          | none => none
          | some (j, r4) =>
            match skipWsChars r4 with
            | ',' :: r5 =>
              match parseFields fuel r5 with
              | some (fs, r6) => some ((String.mk key, j) :: fs, r6)
              | none => none
            | c :: r5 =>
              if c = Char.ofNat 125 then some ([(String.mk key, j)], r5)
              else none
            | [] => none
        | _ => none
    | _ => none

end

/-- `JSON.parse`: `none` models a thrown `SyntaxError`. -/
def jsonParse (s : String) : Option Json :=
  match parseVal (2 * s.length + 2) s.data with
  | some (j, rest) => if (skipWsChars rest).isEmpty then some j else none
  | none => none

/-! ## The price provider: `getStockPriceFromTwelveData` (`src/server.js:23-42`)

The remote call itself (`axios.get`) is external; its outcome is a parameter.
`Except.error` models a thrown network error / timeout / non-2xx response.
On success, the body's `price` field is a dynamically typed JavaScript value,
modelled by `JsPrim` (`Option JsPrim = none` means the field is absent). -/

inductive JsPrim where
  | null
  | bool (b : Bool)
  | num (q : ℚ)
  | str (s : String)
deriving DecidableEq

/-- JavaScript truthiness of a primitive value (`NaN` is not modelled; every
`Rat` is a genuine number).  A `Rat` is zero exactly when its numerator is. -/
def truthyPrim : JsPrim → Bool
  | JsPrim.null => false
  | JsPrim.bool b => b
  | JsPrim.num q => !(q.num == 0)
  | JsPrim.str s => !(s == "")

/-- The `response.data` object: `price` is its (optional) `price` field. -/
structure TDData where
  price : Option JsPrim
deriving DecidableEq

/-- The provider response: `data = none` models a falsy `response.data`
(an object is always truthy, so a present body is `some`). -/
structure TDResponse where
  data : Option TDData
deriving DecidableEq

/-- JavaScript `parseFloat` on a primitive: longest numeric prefix of the
string form; `none` models `NaN` (subset: no exponent notation). -/
def jsParseFloatAbs (cs : List Char) : Option ℚ :=
  let d1 := (takeDigits cs).1
  let r1 := (takeDigits cs).2
  let d2 := match r1 with
    | '.' :: r2 => (takeDigits r2).1
    | _ => []
  if d1.isEmpty && d2.isEmpty then none
  else some (mkRat (digitsToNat d1 * 10 ^ d2.length + digitsToNat d2) (10 ^ d2.length))

def jsParseFloat : JsPrim → Option ℚ
  | JsPrim.num q => some q
  | JsPrim.str s =>
    match skipWsChars s.data with
    | '-' :: r => (jsParseFloatAbs r).map qNeg
    | '+' :: r => jsParseFloatAbs r
    | cs => jsParseFloatAbs cs
  | JsPrim.null => none
  | JsPrim.bool _ => none

/-- `getStockPriceFromTwelveData` (`src/server.js:23-42`): given the outcome
of the network request, return the parsed price (`some` rational, or `none`
for `NaN`) or rethrow; a falsy `response.data` or falsy `response.data.price`
is rejected with `"Invalid response format"`. -/
def getStockPriceFromTwelveData (resp : Except String TDResponse) :
    Except String (Option ℚ) :=
  match resp with
  | Except.error e => Except.error e
  | Except.ok r =>
    match r.data with
    | none => Except.error "Invalid response format"
    | some d =>
      match d.price with
      | none => Except.error "Invalid response format"
      | some v =>
        if truthyPrim v then Except.ok (jsParseFloat v)
        else Except.error "Invalid response format"

/-! ## The price resolver: `getStockPrice` (`src/server.js:45-54`)

`primary` is the behaviour of the single configured provider
(TwelveData).  The function records which providers it actually invokes
(`ProviderCall`) and what it logs, so that "no second provider is invoked"
is a provable statement: no `ProviderCall.alphaVantage` event ever occurs. -/

inductive ProviderCall where
  | twelveData (symbol : String)
  | alphaVantage (symbol : String)
deriving DecidableEq

structure FetchOutcome where
  result : Except String ℚ
  calls : List ProviderCall
  logs : List String

def getStockPrice (primary : String → Except String ℚ) (symbol : String) :
    FetchOutcome :=
  match primary symbol with
  | Except.ok p => ⟨Except.ok p, [ProviderCall.twelveData symbol], []⟩
  | Except.error _ =>
    ⟨Except.error ("Unable to fetch price for " ++ symbol),
      [ProviderCall.twelveData symbol],
      ["TwelveData failed for " ++ symbol ++ ", trying Alpha Vantage..."]⟩

def getStockPriceE (primary : String → Except String ℚ) (symbol : String) :
    Except String ℚ :=
  (getStockPrice primary symbol).result

theorem getStockPriceE_ok_iff (primary : String → Except String ℚ)
    (symbol : String) (p : ℚ) :
    getStockPriceE primary symbol = Except.ok p ↔ primary symbol = Except.ok p := by
  cases h : primary symbol <;> simp [getStockPriceE, getStockPrice, h]

/-! ## The portfolio calculation: `POST /api/portfolio` (`src/server.js:79-153`)

A request item `{symbol, quantity}`: `none` models an absent (or undefined)
field.  `StockResult` mirrors the two shapes pushed onto `results`. -/

structure StockInput where
  symbol : Option String
  quantity : Option ℚ
deriving DecidableEq

inductive StockResult where
  | priced (symbol : String) (quantity : ℚ) (currentPrice : String)
      (totalValue : String)
  | errored (symbol : String) (error : String)
deriving DecidableEq

/-- The guard `!symbol || !quantity || quantity <= 0`, using JavaScript
truthiness (an absent field and the empty string / zero are falsy). -/
def invalidStock (st : StockInput) : Bool :=
  (match st.symbol with
   | none => true
   | some s => s == "") ||
  (match st.quantity with
   | none => true
   | some q => decide (q ≤ 0))

/-- JavaScript `a || b` for an optional string `a`: the first truthy value. -/
def jsOr (a : Option String) (b : String) : String :=
  match a with
  | none => b
  | some s => if s == "" then b else s

/-- Outcome of the per-item loop body (`src/server.js:93-122`): the pushed
`StockResult`, the amount added to `totalPortfolioValue`, and the provider
calls performed. -/
structure ItemOutcome where
  result : StockResult
  value : ℚ
  calls : List ProviderCall
deriving DecidableEq

def processStock (primary : String → Except String ℚ) (st : StockInput) :
    ItemOutcome :=
  if invalidStock st then
    ⟨StockResult.errored (jsOr st.symbol "Unknown") "Invalid symbol or quantity", 0, []⟩
  else
    match st.symbol, st.quantity with
    | some s, some q =>
      let f := getStockPrice primary (upperStr s)
      match f.result with
      | Except.ok p =>
        ⟨StockResult.priced (upperStr s) q (toFixed2 p) (toFixed2 (round2 (qMul p q))),
          round2 (qMul p q), f.calls⟩
      | Except.error msg =>
        ⟨StockResult.errored (upperStr s) ("Unable to fetch price: " ++ msg), 0, f.calls⟩
    | _, _ =>
      -- unreachable: `invalidStock` is true whenever a field is absent
      ⟨StockResult.errored (jsOr st.symbol "Unknown") "Invalid symbol or quantity", 0, []⟩

/-- The `for (const stock of stocks)` loop: results are pushed in order and
the item values are accumulated into the running total. -/
def processAll (primary : String → Except String ℚ) :
    List StockInput → List StockResult × ℚ
  | [] => ([], 0)
  | st :: rest =>
    ((processStock primary st).result :: (processAll primary rest).1,
      qAdd (processStock primary st).value (processAll primary rest).2)

structure PortfolioResponse where
  stocks : List StockResult
  totalPortfolioValue : String
  timestamp : String
deriving DecidableEq

/-- The response computation of the handler (`src/server.js:81-128`):
validation, the per-item loop, and aggregation.  `ts` is the current time
rendered by `new Date().toISOString()`. -/
def calculate (primary : String → Except String ℚ) (ts : String)
    (stocks : List StockInput) : Except String PortfolioResponse :=
  if stocks.isEmpty then
    Except.error "Invalid input. Please provide an array of stocks."
  else
    Except.ok ⟨(processAll primary stocks).1,
      toFixed2 (processAll primary stocks).2, ts⟩

/-! ## History persistence (`src/server.js:57-74` and `130-143`) -/

/-- `loadHistory` (`src/server.js:57-65`): `file = none` models an absent
(or unreadable) history file, `parse` is the platform `JSON.parse`; any
failure yields the empty array, so the function is total. -/
def loadHistory (parse : String → Option Json) (file : Option String) : Json :=
  match file with
  | none => Json.arr []
  | some content =>
    match parse content with
    | some j => j
    | none => Json.arr []

/-- `saveHistory` (`src/server.js:68-74`): `writeOk = false` models a failed
`fs.writeFile`; the error is logged and swallowed, the file is unchanged.
Returns the new file state and the log lines. -/
def saveHistory (writeOk : Bool) (file : Option String) (content : String) :
    Option String × List String :=
  if writeOk then (some content, [])
  else (file, ["Error saving history:"])

/-- `history.unshift(entry)` followed by `if (history.length > 50)
history.splice(50)` (`src/server.js:136-141`). -/
def appendTrunc (history : List Json) (entry : Json) : List Json :=
  let h := entry :: history
  if h.length > 50 then h.take 50 else h

/-- The history phase of the portfolio handler (`src/server.js:130-143`),
which is also the `append` operation of the history store: load, prepend,
truncate to 50, save.  `Except.error ()` models the `TypeError` thrown by
`history.unshift` when the loaded JSON document is not an array.  On success
returns (new file state, log lines, the content passed to the write). -/
def appendHistory (parse : String → Option Json) (stringify : Json → String)
    (writeOk : Bool) (file : Option String) (entry : Json) :
    Except Unit (Option String × List String × String) :=
  match loadHistory parse file with
  | Json.arr l =>
    let content := stringify (Json.arr (appendTrunc l entry))
    Except.ok ((saveHistory writeOk file content).1,
      (saveHistory writeOk file content).2, content)
  | _ => Except.error ()

/-- The history entry `{...response, id: Date.now()}` as the JSON document
passed to `JSON.stringify` (`src/server.js:132-135`). -/
def stockResultToJson : StockResult → Json
  | StockResult.priced s q cp tv =>
    Json.obj [("symbol", Json.str s), ("quantity", Json.num q),
      ("currentPrice", Json.str cp), ("totalValue", Json.str tv)]
  | StockResult.errored s e =>
    Json.obj [("symbol", Json.str s), ("error", Json.str e)]

def historyEntryJson (r : PortfolioResponse) (idMillis : ℤ) : Json :=
  Json.obj [("stocks", Json.arr (r.stocks.map stockResultToJson)),
    ("totalPortfolioValue", Json.str r.totalPortfolioValue),
    ("timestamp", Json.str r.timestamp),
    ("id", Json.num (idMillis : ℚ))]

/-- Result of one `POST /api/portfolio` request: HTTP status, the JSON body
(success or error), the resulting file state, the contents passed to
`saveHistory`, and the log lines emitted by the history phase. -/
structure HandlerResult where
  status : Nat
  okBody : Option PortfolioResponse
  errBody : Option String
  newFile : Option String
  saveAttempts : List String
  logs : List String

/-- The full `POST /api/portfolio` handler (`src/server.js:79-153`).
`body = none` models a request whose `stocks` field is missing or not an
array; `idMillis` is `Date.now()` at entry-creation time. -/
def portfolioHandler (primary : String → Except String ℚ)
    (parse : String → Option Json) (stringify : Json → String)
    (writeOk : Bool) (ts : String) (idMillis : ℤ) (file : Option String)
    (body : Option (List StockInput)) : HandlerResult :=
  match body with
  | none =>
    ⟨400, none, some "Invalid input. Please provide an array of stocks.",
      file, [], []⟩
  | some stocks =>
    match calculate primary ts stocks with
    | Except.error msg => ⟨400, none, some msg, file, [], []⟩
    | Except.ok response =>
      match appendHistory parse stringify writeOk file
          (historyEntryJson response idMillis) with
      | Except.ok (file2, slogs, content) =>
        ⟨200, some response, none, file2, [content], slogs⟩
      | Except.error _ =>
        ⟨500, none, some "Internal server error. Please try again later.",
          file, [], []⟩

/-- The `GET /api/history` handler (`src/server.js:156-166`): `loadHistory`
is total, so the route always answers 200 with the loaded document. -/
def historyHandler (parse : String → Option Json) (file : Option String) :
    Nat × Json :=
  (200, loadHistory parse file)

/-! ## Bridging lemmas -/

theorem processAll_fst (primary : String → Except String ℚ) (l : List StockInput) :
    (processAll primary l).1 = l.map (fun st => (processStock primary st).result) := by
  induction l with
  | nil => rfl
  | cons st rest ih => simp [processAll, ih]

theorem processAll_snd (primary : String → Except String ℚ) (l : List StockInput) :
    (processAll primary l).2 =
      (l.map (fun st => (processStock primary st).value)).sum := by
  induction l with
  | nil => rfl
  | cons st rest ih => simp [processAll, ih, qAdd_eq]

theorem calculate_ok (primary : String → Except String ℚ) (ts : String)
    (stocks : List StockInput) (h : stocks ≠ []) :
    calculate primary ts stocks =
      Except.ok ⟨(processAll primary stocks).1,
        toFixed2 (processAll primary stocks).2, ts⟩ := by
  cases stocks with
  | nil => exact absurd rfl h
  | cons a l => rfl

theorem processStock_invalid (primary : String → Except String ℚ)
    (st : StockInput) (h : invalidStock st = true) :
    processStock primary st =
      ⟨StockResult.errored (jsOr st.symbol "Unknown") "Invalid symbol or quantity",
        0, []⟩ := by
  simp [processStock, h]

theorem processStock_valid (primary : String → Except String ℚ) (s : String)
    (q : ℚ) (hv : invalidStock ⟨some s, some q⟩ = false) :
    processStock primary ⟨some s, some q⟩ =
      match primary (upperStr s) with
      | Except.ok p =>
        ⟨StockResult.priced (upperStr s) q (toFixed2 p)
            (toFixed2 (round2 (qMul p q))),
          round2 (qMul p q), [ProviderCall.twelveData (upperStr s)]⟩
      | Except.error _ =>
        ⟨StockResult.errored (upperStr s)
            ("Unable to fetch price: " ++ ("Unable to fetch price for " ++ upperStr s)),
          0, [ProviderCall.twelveData (upperStr s)]⟩ := by
  cases hps : primary (upperStr s) <;>
    simp [processStock, hv, getStockPrice, hps]

theorem invalidStock_true_of (st : StockInput)
    (h : st.symbol = none ∨ st.symbol = some "" ∨ st.quantity = none ∨
      ∃ q, st.quantity = some q ∧ q ≤ 0) : invalidStock st = true := by
  unfold invalidStock
  rcases h with h | h | h | ⟨q, hq, hle⟩
  · rw [h]; simp
  · rw [h]; simp
  · rw [h]; simp
  · rw [hq]; simp [hle]

theorem appendTrunc_head (history : List Json) (entry : Json) :
    (appendTrunc history entry).head? = some entry := by
  unfold appendTrunc
  by_cases h : (entry :: history).length > 50
  · simp only [if_pos h]
    have : List.take 50 (entry :: history) = entry :: List.take 49 history := rfl
    rw [this]; rfl
  · simp only [if_neg h]; rfl

theorem appendTrunc_length_le (history : List Json) (entry : Json) :
    (appendTrunc history entry).length ≤ 50 := by
  unfold appendTrunc
  by_cases h : (entry :: history).length > 50
  · simp only [if_pos h, List.length_take]
    omega
  · simp only [if_neg h]
    omega

theorem appendTrunc_full (history : List Json) (entry : Json)
    (h : history.length = 50) :
    appendTrunc history entry = entry :: history.dropLast := by
  unfold appendTrunc
  have hl : (entry :: history).length > 50 := by simp [List.length_cons, h]
  simp only [if_pos hl]
  have ht : List.take 50 (entry :: history) = entry :: List.take 49 history := rfl
  rw [ht, List.dropLast_eq_take, h]

/-! ## The claims -/

/-- Claim C1: for every valid non-empty input list, `calculate` succeeds with
exactly one `StockResult` per input item, in input order; each output entry is
a function of its own input item alone, so a failure on one item never removes
or aborts the entries for the other items. -/
theorem calculate_one_result_per_item (primary : String → Except String ℚ)
    (ts : String) (stocks : List StockInput) (h : stocks ≠ []) :
    ∃ resp, calculate primary ts stocks = Except.ok resp ∧
      resp.stocks.length = stocks.length ∧
      resp.stocks = stocks.map (fun st => (processStock primary st).result) := by
  refine ⟨_, calculate_ok primary ts stocks h, ?_, ?_⟩
  · simp [processAll_fst]
  · simp [processAll_fst]

theorem calculate_one_result_per_item_witness :
    (([⟨some "aapl", some 2⟩, ⟨some "bad", some 1⟩] : List StockInput) ≠ []) ∧
    ∃ resp, calculate
        (fun s => if s == "AAPL" then Except.ok 150 else Except.error "HTTP 404")
        "2026-01-01T00:00:00.000Z"
        [⟨some "aapl", some 2⟩, ⟨some "bad", some 1⟩] = Except.ok resp ∧
      resp.stocks.length =
        ([⟨some "aapl", some 2⟩, ⟨some "bad", some 1⟩] : List StockInput).length ∧
      resp.stocks = ([⟨some "aapl", some 2⟩, ⟨some "bad", some 1⟩] :
        List StockInput).map (fun st => (processStock
          (fun s => if s == "AAPL" then Except.ok 150 else Except.error "HTTP 404")
          st).result) :=
  ⟨List.cons_ne_nil _ _,
    calculate_one_result_per_item
      (fun s => if s == "AAPL" then Except.ok 150 else Except.error "HTTP 404")
      "2026-01-01T00:00:00.000Z"
      [⟨some "aapl", some 2⟩, ⟨some "bad", some 1⟩] (List.cons_ne_nil _ _)⟩

/-- Claim C2: for every input list, `totalPortfolioValue` is
`toFixed2` of the sum of the per-item contributions, where a successfully
priced item contributes `round2 (price * quantity)` (also rendered as its
`totalValue` string), a failed lookup contributes `0`, and an invalid item
contributes `0`; the rendering has exactly two decimal places. -/
theorem calculate_total_value (primary : String → Except String ℚ)
    (ts : String) (stocks : List StockInput) (h : stocks ≠ []) :
    ∃ resp, calculate primary ts stocks = Except.ok resp ∧
      resp.totalPortfolioValue =
        toFixed2 ((stocks.map (fun st => (processStock primary st).value)).sum) ∧
      (∀ st : StockInput, ∀ s q, st.symbol = some s → st.quantity = some q →
        invalidStock st = false →
        (∀ p, getStockPriceE primary (upperStr s) = Except.ok p →
          (processStock primary st).value = round2 (p * q) ∧
          (processStock primary st).result =
            StockResult.priced (upperStr s) q (toFixed2 p)
              (toFixed2 (round2 (p * q)))) ∧
        (∀ e, getStockPriceE primary (upperStr s) = Except.error e →
          (processStock primary st).value = 0)) ∧
      (∀ st : StockInput, invalidStock st = true →
        (processStock primary st).value = 0) ∧
      (∃ a b, resp.totalPortfolioValue = a ++ "." ++ b ∧ b.length = 2) := by
  refine ⟨_, calculate_ok primary ts stocks h, ?_, ?_, ?_, ?_⟩
  · simp [processAll_snd]
  · rintro ⟨sym, qty⟩ s q hs hq hv
    cases hs; cases hq
    constructor
    · intro p hp
      rw [getStockPriceE_ok_iff] at hp
      rw [processStock_valid primary s q hv, hp]
      simp [qMul_eq]
    · intro e he
      cases hps : primary (upperStr s) with
      | ok p =>
        rw [← getStockPriceE_ok_iff primary (upperStr s) p] at hps
        rw [hps] at he
        cases he
      | error e0 =>
        rw [processStock_valid primary s q hv, hps]
  · intro st hv
    rw [processStock_invalid primary st hv]
  · simp only [calculate_ok primary ts stocks h]
    exact toFixed2_two_decimals _

theorem calculate_total_value_witness :
    (([⟨some "aapl", some 2⟩, ⟨some "bad", some 1⟩, ⟨some "", some 7⟩] :
      List StockInput) ≠ []) ∧
    ∃ resp, calculate
        (fun s => if s == "AAPL" then Except.ok 150 else Except.error "HTTP 404")
        "t0" [⟨some "aapl", some 2⟩, ⟨some "bad", some 1⟩, ⟨some "", some 7⟩] =
          Except.ok resp ∧
      resp.totalPortfolioValue =
        toFixed2 ((([⟨some "aapl", some 2⟩, ⟨some "bad", some 1⟩,
          ⟨some "", some 7⟩] : List StockInput).map (fun st => (processStock
            (fun s => if s == "AAPL" then Except.ok 150 else Except.error "HTTP 404")
            st).value)).sum) ∧
      (∀ st : StockInput, ∀ s q, st.symbol = some s → st.quantity = some q →
        invalidStock st = false →
        (∀ p, getStockPriceE
            (fun s => if s == "AAPL" then Except.ok 150 else Except.error "HTTP 404")
            (upperStr s) = Except.ok p →
          (processStock
            (fun s => if s == "AAPL" then Except.ok 150 else Except.error "HTTP 404")
            st).value = round2 (p * q) ∧
          (processStock
            (fun s => if s == "AAPL" then Except.ok 150 else Except.error "HTTP 404")
            st).result = StockResult.priced (upperStr s) q (toFixed2 p)
              (toFixed2 (round2 (p * q)))) ∧
        (∀ e, getStockPriceE
            (fun s => if s == "AAPL" then Except.ok 150 else Except.error "HTTP 404")
            (upperStr s) = Except.error e →
          (processStock
            (fun s => if s == "AAPL" then Except.ok 150 else Except.error "HTTP 404")
            st).value = 0)) ∧
      (∀ st : StockInput, invalidStock st = true →
        (processStock
          (fun s => if s == "AAPL" then Except.ok 150 else Except.error "HTTP 404")
          st).value = 0) ∧
      (∃ a b, resp.totalPortfolioValue = a ++ "." ++ b ∧ b.length = 2) :=
  ⟨List.cons_ne_nil _ _,
    calculate_total_value
      (fun s => if s == "AAPL" then Except.ok 150 else Except.error "HTTP 404")
      "t0" [⟨some "aapl", some 2⟩, ⟨some "bad", some 1⟩, ⟨some "", some 7⟩]
      (List.cons_ne_nil _ _)⟩

/-- Claim C3: `append` places the new entry at index 0 and the persisted
history never exceeds 50 entries; appending to a history that already holds
50 entries drops the oldest (last) one. -/
theorem appendTrunc_bounded (history : List Json) (entry : Json) :
    (appendTrunc history entry).head? = some entry ∧
    (appendTrunc history entry).length ≤ 50 ∧
    (history.length = 50 →
      appendTrunc history entry = entry :: history.dropLast ∧
      (appendTrunc history entry).length = 50) := by
  refine ⟨appendTrunc_head history entry, appendTrunc_length_le history entry, ?_⟩
  intro h
  refine ⟨appendTrunc_full history entry h, ?_⟩
  rw [appendTrunc_full history entry h]
  simp [List.length_dropLast, h]

theorem appendTrunc_bounded_witness :
    (List.replicate 50 Json.null).length = 50 ∧
    ((appendTrunc (List.replicate 50 Json.null) (Json.str "e")).head? =
      some (Json.str "e") ∧
    (appendTrunc (List.replicate 50 Json.null) (Json.str "e")).length ≤ 50 ∧
    ((List.replicate 50 Json.null).length = 50 →
      appendTrunc (List.replicate 50 Json.null) (Json.str "e") =
        Json.str "e" :: (List.replicate 50 Json.null).dropLast ∧
      (appendTrunc (List.replicate 50 Json.null) (Json.str "e")).length = 50)) :=
  ⟨by simp, appendTrunc_bounded (List.replicate 50 Json.null) (Json.str "e")⟩

/-- Claim C4 counterexample: for the input item `{symbol: "", quantity: 5}`
(an empty but present symbol), the recorded `StockResult` carries the symbol
`"Unknown"`, not the symbol as given (`""`): `symbol || 'Unknown'` replaces
every falsy symbol, not only a missing one. -/
theorem processStock_empty_symbol_counterexample :
    (processStock (fun _ => Except.error "down") ⟨some "", some 5⟩).result =
      StockResult.errored "Unknown" "Invalid symbol or quantity" ∧
    StockResult.errored "Unknown" "Invalid symbol or quantity" ≠
      StockResult.errored "" "Invalid symbol or quantity" := by
  exact ⟨rfl, by decide⟩

/-- Claim C4 (amended): an item whose symbol is missing or empty, or whose
quantity is missing, zero or negative, records
`error: "Invalid symbol or quantity"` with the symbol as given when it is a
non-empty string and the literal `"Unknown"` when the symbol is missing or
empty; no price lookup is performed and the item contributes `0` to the
total. -/
theorem processStock_invalid_item (primary : String → Except String ℚ)
    (st : StockInput)
    (h : st.symbol = none ∨ st.symbol = some "" ∨ st.quantity = none ∨
      ∃ q, st.quantity = some q ∧ q ≤ 0) :
    (processStock primary st).result =
      StockResult.errored (jsOr st.symbol "Unknown") "Invalid symbol or quantity" ∧
    (st.symbol = none ∨ st.symbol = some "" → jsOr st.symbol "Unknown" = "Unknown") ∧
    (∀ s, st.symbol = some s → s ≠ "" → jsOr st.symbol "Unknown" = s) ∧
    (processStock primary st).value = 0 ∧
    (processStock primary st).calls = [] := by
  have hv := invalidStock_true_of st h
  rw [processStock_invalid primary st hv]
  refine ⟨rfl, ?_, ?_, rfl, rfl⟩
  · rintro (hs | hs) <;> rw [hs] <;> simp [jsOr]
  · intro s hs hne
    rw [hs]
    simp [jsOr, hne]

theorem processStock_invalid_item_witness :
    ((⟨some "msft", some (-3)⟩ : StockInput).symbol = none ∨
      (⟨some "msft", some (-3)⟩ : StockInput).symbol = some "" ∨
      (⟨some "msft", some (-3)⟩ : StockInput).quantity = none ∨
      ∃ q, (⟨some "msft", some (-3)⟩ : StockInput).quantity = some q ∧ q ≤ 0) ∧
    ((processStock (fun _ => Except.ok 10) ⟨some "msft", some (-3)⟩).result =
      StockResult.errored (jsOr (some "msft") "Unknown") "Invalid symbol or quantity" ∧
    ((⟨some "msft", some (-3)⟩ : StockInput).symbol = none ∨
      (⟨some "msft", some (-3)⟩ : StockInput).symbol = some "" →
      jsOr (some "msft") "Unknown" = "Unknown") ∧
    (∀ s, (⟨some "msft", some (-3)⟩ : StockInput).symbol = some s → s ≠ "" →
      jsOr (some "msft") "Unknown" = s) ∧
    (processStock (fun _ => Except.ok 10) ⟨some "msft", some (-3)⟩).value = 0 ∧
    (processStock (fun _ => Except.ok 10) ⟨some "msft", some (-3)⟩).calls = []) :=
  ⟨Or.inr (Or.inr (Or.inr ⟨-3, rfl, by norm_num⟩)),
    processStock_invalid_item (fun _ => Except.ok 10) ⟨some "msft", some (-3)⟩
      (Or.inr (Or.inr (Or.inr ⟨-3, rfl, by norm_num⟩)))⟩

/-- Claim C5: `getStockPrice` invokes the primary (TwelveData) provider
exactly once and never invokes a second provider; when the attempt fails it
logs the fallback-attempt notice and fails immediately with an error whose
message contains the symbol. -/
theorem getStockPrice_single_attempt (primary : String → Except String ℚ)
    (symbol : String) :
    (getStockPrice primary symbol).calls = [ProviderCall.twelveData symbol] ∧
    (∀ c, c ∈ (getStockPrice primary symbol).calls →
      ∀ s, c ≠ ProviderCall.alphaVantage s) ∧
    (∀ e, primary symbol = Except.error e →
      (getStockPrice primary symbol).result =
        Except.error ("Unable to fetch price for " ++ symbol) ∧
      (getStockPrice primary symbol).logs =
        ["TwelveData failed for " ++ symbol ++ ", trying Alpha Vantage..."] ∧
      ∃ pre post, "Unable to fetch price for " ++ symbol = pre ++ symbol ++ post) := by
  refine ⟨?_, ?_, ?_⟩
  · cases hps : primary symbol <;> simp [getStockPrice, hps]
  · intro c hc s
    cases hps : primary symbol <;>
      simp [getStockPrice, hps] at hc <;> simp [hc]
  · intro e he
    refine ⟨?_, ?_, "Unable to fetch price for ", "", ?_⟩
    · simp [getStockPrice, he]
    · simp [getStockPrice, he]
    · rw [String.append_empty]

theorem getStockPrice_single_attempt_witness :
    ((fun _ => Except.error "boom" : String → Except String ℚ) "AAPL" =
      Except.error "boom") ∧
    ((getStockPrice (fun _ => Except.error "boom") "AAPL").result =
      Except.error ("Unable to fetch price for " ++ "AAPL") ∧
    (getStockPrice (fun _ => Except.error "boom") "AAPL").logs =
      ["TwelveData failed for " ++ "AAPL" ++ ", trying Alpha Vantage..."] ∧
    ∃ pre post, "Unable to fetch price for " ++ "AAPL" = pre ++ "AAPL" ++ post) ∧
    (getStockPrice (fun _ => Except.error "boom") "AAPL").calls =
      [ProviderCall.twelveData "AAPL"] :=
  ⟨rfl,
    (getStockPrice_single_attempt (fun _ => Except.error "boom") "AAPL").2.2
      "boom" rfl,
    (getStockPrice_single_attempt (fun _ => Except.error "boom") "AAPL").1⟩

/-- Claim C6: `loadHistory` never fails to its caller: an absent history file
or a file whose content does not parse yields the empty array.  (Totality is
by construction: the return type carries no error case.) -/
theorem loadHistory_bad_input (parse : String → Option Json) :
    loadHistory parse none = Json.arr [] ∧
    ∀ s, parse s = none → loadHistory parse (some s) = Json.arr [] := by
  refine ⟨rfl, ?_⟩
  intro s hs
  simp [loadHistory, hs]

theorem loadHistory_bad_input_witness :
    jsonParse "oops" = none ∧
    loadHistory jsonParse none = Json.arr [] ∧
    loadHistory jsonParse (some "oops") = Json.arr [] :=
  ⟨rfl, (loadHistory_bad_input jsonParse).1,
    (loadHistory_bad_input jsonParse).2 "oops" rfl⟩

/-- Claim C7: a history-write failure is logged and swallowed; the append is
attempted unconditionally after the response is computed (also when every
item errored and the total is zero), and the HTTP response (status and body)
is identical whether or not the write succeeds; on failure the file is
unchanged. -/
theorem portfolio_persistence_isolated (primary : String → Except String ℚ)
    (parse : String → Option Json) (stringify : Json → String) (ts : String)
    (idMillis : ℤ) (file : Option String) (stocks : List StockInput)
    (l : List Json) (hne : stocks ≠ [])
    (hload : loadHistory parse file = Json.arr l) :
    ∃ resp content,
      calculate primary ts stocks = Except.ok resp ∧
      content = stringify (Json.arr (appendTrunc l (historyEntryJson resp idMillis))) ∧
      (∀ writeOk,
        (portfolioHandler primary parse stringify writeOk ts idMillis file
          (some stocks)).status = 200 ∧
        (portfolioHandler primary parse stringify writeOk ts idMillis file
          (some stocks)).okBody = some resp ∧
        (portfolioHandler primary parse stringify writeOk ts idMillis file
          (some stocks)).errBody = none ∧
        (portfolioHandler primary parse stringify writeOk ts idMillis file
          (some stocks)).saveAttempts = [content]) ∧
      (portfolioHandler primary parse stringify true ts idMillis file
        (some stocks)).newFile = some content ∧
      (portfolioHandler primary parse stringify false ts idMillis file
        (some stocks)).newFile = file ∧
      (portfolioHandler primary parse stringify false ts idMillis file
        (some stocks)).logs = ["Error saving history:"] := by
  refine ⟨_, _, calculate_ok primary ts stocks hne, rfl, ?_, ?_, ?_, ?_⟩
  · intro writeOk
    cases writeOk <;>
      simp [portfolioHandler, calculate_ok primary ts stocks hne,
        appendHistory, hload, saveHistory]
  · simp [portfolioHandler, calculate_ok primary ts stocks hne,
      appendHistory, hload, saveHistory]
  · simp [portfolioHandler, calculate_ok primary ts stocks hne,
      appendHistory, hload, saveHistory]
  · simp [portfolioHandler, calculate_ok primary ts stocks hne,
      appendHistory, hload, saveHistory]

theorem portfolio_persistence_isolated_witness :
    (([⟨some "xyz", some 1⟩] : List StockInput) ≠ []) ∧
    loadHistory jsonParse none = Json.arr [] ∧
    ∃ resp content,
      calculate (fun _ => Except.error "down") "t1" [⟨some "xyz", some 1⟩] =
        Except.ok resp ∧
      content = jsonStringify (Json.arr (appendTrunc []
        (historyEntryJson resp 1700000000000))) ∧
      (∀ writeOk,
        (portfolioHandler (fun _ => Except.error "down") jsonParse jsonStringify
          writeOk "t1" 1700000000000 none (some [⟨some "xyz", some 1⟩])).status = 200 ∧
        (portfolioHandler (fun _ => Except.error "down") jsonParse jsonStringify
          writeOk "t1" 1700000000000 none (some [⟨some "xyz", some 1⟩])).okBody =
            some resp ∧
        (portfolioHandler (fun _ => Except.error "down") jsonParse jsonStringify
          writeOk "t1" 1700000000000 none (some [⟨some "xyz", some 1⟩])).errBody =
            none ∧
        (portfolioHandler (fun _ => Except.error "down") jsonParse jsonStringify
          writeOk "t1" 1700000000000 none (some [⟨some "xyz", some 1⟩])).saveAttempts =
            [content]) ∧
      (portfolioHandler (fun _ => Except.error "down") jsonParse jsonStringify
        true "t1" 1700000000000 none (some [⟨some "xyz", some 1⟩])).newFile =
          some content ∧
      (portfolioHandler (fun _ => Except.error "down") jsonParse jsonStringify
        false "t1" 1700000000000 none (some [⟨some "xyz", some 1⟩])).newFile = none ∧
      (portfolioHandler (fun _ => Except.error "down") jsonParse jsonStringify
        false "t1" 1700000000000 none (some [⟨some "xyz", some 1⟩])).logs =
          ["Error saving history:"] :=
  ⟨List.cons_ne_nil _ _, rfl,
    portfolio_persistence_isolated (fun _ => Except.error "down") jsonParse
      jsonStringify "t1" 1700000000000 none [⟨some "xyz", some 1⟩] []
      (List.cons_ne_nil _ _) rfl⟩

/-- A sample history entry used to exercise the round-trip claim: the
document the service writes for a one-stock portfolio. -/
def sampleEntry : Json :=
  Json.obj [("stocks", Json.arr [Json.obj [("symbol", Json.str "AAPL"),
    ("quantity", Json.num 2), ("currentPrice", Json.str "150.00"),
    ("totalValue", Json.str "300.00")]]),
    ("totalPortfolioValue", Json.str "300.00"),
    ("timestamp", Json.str "2026-01-01T00:00:00.000Z"),
    ("id", Json.num 1700000000000)]

/-- Claim C8: round-trip — appending an entry (serialized by `saveHistory`)
and reading the history back via `loadHistory`/`readAll` yields the entry
unchanged (the very same JSON document: same symbol casing and the same
numeric-string formatting), provided the platform codec parses back what it
printed for the written document. -/
theorem history_append_roundtrip (parse : String → Option Json)
    (stringify : Json → String) (file : Option String) (entry : Json)
    (l : List Json) (hload : loadHistory parse file = Json.arr l)
    (hcodec : parse (stringify (Json.arr (appendTrunc l entry))) =
      some (Json.arr (appendTrunc l entry))) :
    ∃ content,
      appendHistory parse stringify true file entry =
        Except.ok (some content, [], content) ∧
      content = stringify (Json.arr (appendTrunc l entry)) ∧
      loadHistory parse (some content) = Json.arr (appendTrunc l entry) ∧
      (appendTrunc l entry).head? = some entry ∧
      historyHandler parse (some content) =
        (200, Json.arr (appendTrunc l entry)) := by
  refine ⟨stringify (Json.arr (appendTrunc l entry)), ?_, rfl, ?_, ?_, ?_⟩
  · simp [appendHistory, hload, saveHistory]
  · simp [loadHistory, hcodec]
  · exact appendTrunc_head l entry
  · simp [historyHandler, loadHistory, hcodec]

theorem history_append_roundtrip_witness :
    loadHistory jsonParse none = Json.arr [] ∧
    jsonParse (jsonStringify (Json.arr (appendTrunc [] sampleEntry))) =
      some (Json.arr (appendTrunc [] sampleEntry)) ∧
    ∃ content,
      appendHistory jsonParse jsonStringify true none sampleEntry =
        Except.ok (some content, [], content) ∧
      content = jsonStringify (Json.arr (appendTrunc [] sampleEntry)) ∧
      loadHistory jsonParse (some content) = Json.arr (appendTrunc [] sampleEntry) ∧
      (appendTrunc [] sampleEntry).head? = some sampleEntry ∧
      historyHandler jsonParse (some content) =
        (200, Json.arr (appendTrunc [] sampleEntry)) :=
  ⟨rfl, rfl,
    history_append_roundtrip jsonParse jsonStringify none sampleEntry [] rfl rfl⟩

/-- Claim C9: `loadHistory` returns whatever document the file's content
parses to, with no check that it is an array; valid JSON that is not an
array is returned unchanged, not treated as "no history". -/
theorem loadHistory_no_array_check (parse : String → Option Json) (s : String)
    (j : Json) (h : parse s = some j) :
    loadHistory parse (some s) = j ∧
    (j ≠ Json.arr [] → loadHistory parse (some s) ≠ Json.arr []) := by
  have hl : loadHistory parse (some s) = j := by simp [loadHistory, h]
  exact ⟨hl, fun hne => hl ▸ hne⟩

theorem loadHistory_no_array_check_witness :
    jsonParse "\x7b\"a\": 1\x7d" = some (Json.obj [("a", Json.num 1)]) ∧
    (loadHistory jsonParse (some "\x7b\"a\": 1\x7d") =
      Json.obj [("a", Json.num 1)] ∧
    (Json.obj [("a", Json.num 1)] ≠ Json.arr [] →
      loadHistory jsonParse (some "\x7b\"a\": 1\x7d") ≠ Json.arr [])) :=
  ⟨rfl, loadHistory_no_array_check jsonParse "\x7b\"a\": 1\x7d"
    (Json.obj [("a", Json.num 1)]) rfl⟩

/-- Claim C10 counterexample: the provider response whose `price` field is
the string `"0"` is truthy, so `getStockPriceFromTwelveData` parses it and
returns the price `0` instead of failing — a price of exactly 0 *can* be
returned. -/
theorem fetchPrice_string_zero_counterexample :
    getStockPriceFromTwelveData
      (Except.ok ⟨some ⟨some (JsPrim.str "0")⟩⟩) = Except.ok (some 0) ∧
    (Except.ok (some (0 : ℚ)) : Except String (Option ℚ)) ≠
      Except.error "Invalid response format" := by
  refine ⟨rfl, ?_⟩
  intro h
  cases h

/-- Claim C10 (amended): `getStockPriceFromTwelveData` fails with
`"Invalid response format"` whenever the `price` field is absent or falsy
(null, `false`, the empty string, or the number 0) — and also when
`response.data` itself is falsy — but a *string* `"0"` is truthy and parses
to the number 0, so a zero price can still be returned. -/
theorem fetchPrice_rejects_falsy (resp : TDResponse)
    (h : resp.data = none ∨ ∃ d, resp.data = some d ∧
      (d.price = none ∨ ∃ v, d.price = some v ∧ truthyPrim v = false)) :
    getStockPriceFromTwelveData (Except.ok resp) =
      Except.error "Invalid response format" := by
  rcases h with h | ⟨d, hd, h | ⟨v, hv, hfalsy⟩⟩
  · simp [getStockPriceFromTwelveData, h]
  · simp [getStockPriceFromTwelveData, hd, h]
  · simp [getStockPriceFromTwelveData, hd, hv, hfalsy]

theorem fetchPrice_rejects_falsy_witness :
    ((⟨some ⟨some (JsPrim.str "")⟩⟩ : TDResponse).data = none ∨
      ∃ d, (⟨some ⟨some (JsPrim.str "")⟩⟩ : TDResponse).data = some d ∧
        (d.price = none ∨ ∃ v, d.price = some v ∧ truthyPrim v = false)) ∧
    getStockPriceFromTwelveData
      (Except.ok ⟨some ⟨some (JsPrim.str "")⟩⟩) =
        Except.error "Invalid response format" :=
  ⟨Or.inr ⟨⟨some (JsPrim.str "")⟩, rfl, Or.inr ⟨JsPrim.str "", rfl, rfl⟩⟩,
    fetchPrice_rejects_falsy ⟨some ⟨some (JsPrim.str "")⟩⟩
      (Or.inr ⟨⟨some (JsPrim.str "")⟩, rfl, Or.inr ⟨JsPrim.str "", rfl, rfl⟩⟩)⟩

end StockCalculator
